import Mathlib

/-!
# twilio-go: Rooms and Video Participants façades

A shallow embedding of `room.go` and `video_participants.go`.

Go pointers that may be nil (`*Room`, `*RoomPage`, ...) are `Option`s, Go
slices are `Option (List _)` (`none` is the nil slice), the Go `error`
interface is `Option Error` (`none` is nil).  A method that mutates the
iterator behind a pointer returns the iterator's new value.  Every call on the
client is appended to a log that is threaded through each operation, so that
the number and the arguments of the calls an operation makes can be stated.
-/

namespace Twilio

/-! ## Types the façades use -/

/-- A `context.Context`, reduced to an identity: the façades only pass it on. -/
structure Context where
  id : Nat
deriving DecidableEq, Repr

/-- Go `url.Values`, a `map[string][]string`, as an association list with at
most one entry per key. -/
abbrev Values := List (String × List String)

/-- Go `url.Values.Set`: sets the key to the single value, replacing any
values the key had. -/
def Values.Set (v : Values) (key value : String) : Values :=
  (key, [value]) :: v.filter (fun kv => kv.1 != key)

/-- The keys of a `url.Values`. -/
def Values.keys (v : Values) : List String := v.map Prod.fst

/-- Indexing a `url.Values` map: the values stored under the key, `none` when
the key is absent. -/
def Values.lookup (v : Values) (key : String) : Option (List String) :=
  (v.find? (fun kv => kv.1 == key)).map Prod.snd

/-- The fragment of Go `fmt.Sprintf` on a list of characters: the verb `%s`
is replaced by the next string operand (by `%!s(MISSING)` when the operands
have run out), `%%` is a literal percent sign, every other character is
copied. -/
def sprintfChars : List Char → List String → List Char
  | [], _ => []
  | '%' :: 's' :: rest, a :: args => a.data ++ sprintfChars rest args
  | '%' :: 's' :: rest, [] => "%!s(MISSING)".data ++ sprintfChars rest []
  | '%' :: '%' :: rest, args => '%' :: sprintfChars rest args
  | c :: rest, args => c :: sprintfChars rest args

/-- Go `fmt.Sprintf` restricted to string operands and the `%s` verb. -/
def Sprintf (format : String) (args : List String) : String :=
  String.mk (sprintfChars format.data args)

/-- Modelled from the spec: the `Status` type is declared outside these two
files; it is a string type (`string(StatusCompleted)` in `Complete`). -/
abbrev Status := String

/-- Modelled from the spec: the constant `StatusCompleted` is declared outside
these two files; the spec gives its wire value, `Status=completed`. -/
def StatusCompleted : Status := "completed"

/-- Modelled from the spec: `TwilioTime` is declared outside these two
files; the façades never look inside it, so it is kept as the timestamp
text of the JSON field. -/
structure TwilioTime where
  text : String
deriving DecidableEq, Repr

/-- Modelled from the spec: the error taxonomy of the library (section 7);
the error values are declared outside these two files.  `NoMoreResults` is
the sentinel an exhausted iterator returns. -/
inductive Error where
  | NoMoreResults
  | Transport (cause : String)
  | Decode (cause : String)
  | API (status code : Nat) (message : String)
  | NotFound
  | Canceled
  | DeadlineExceeded
deriving DecidableEq, Repr

/-- Modelled from the spec: the `meta` block of a page envelope, declared
outside these two files: `next_page_url` is a string or null. -/
structure Meta where
  NextPageURL : Option String
deriving DecidableEq, Repr

/-- The struct `Room` (`uint` fields are naturals, no arithmetic is done on
them; the field `Type` is written `Type_`). -/
structure Room where
  Sid : String
  AccountSid : String
  Type_ : String
  EnableTurn : Bool
  UniqueName : String
  StatusCallback : String
  StatusCallbackMethod : String
  MaxParticipants : Nat
  RecordParticipantsOnConnect : Bool
  Duration : Nat
  MediaRegion : String
  Status : Status
  DateCreated : TwilioTime
  DateUpdated : TwilioTime
  EndTime : TwilioTime
  URL : String
  Links : List (String × String)
deriving DecidableEq, Repr

/-- The struct `RoomParticipant`. -/
structure RoomParticipant where
  Sid : String
  Duration : Nat
  Status : Status
  DateCreated : TwilioTime
  EndTime : TwilioTime
  RoomSid : String
  URL : String
  Size : Nat
  Identity : String
  Links : List (String × String)
deriving DecidableEq, Repr

/-- The struct `RoomParticipantPage`. -/
structure RoomParticipantPage where
  Meta : Meta
  Participants : Option (List (Option RoomParticipant))
deriving DecidableEq, Repr

/-- The struct `RoomPage`. -/
structure RoomPage where
  Meta : Meta
  Rooms : Option (List (Option Room))
deriving DecidableEq, Repr

/-- The struct `VideoParticipant`. -/
structure VideoParticipant where
  Sid : String
  Duration : Nat
  Status : Status
  DateCreated : TwilioTime
  EndTime : TwilioTime
  RoomSid : String
  URL : String
  Size : Nat
  Identity : String
  Links : List (String × String)
deriving DecidableEq, Repr

/-- The struct `VideoParticipantPage`. -/
structure VideoParticipantPage where
  Meta : Meta
  Participants : Option (List (Option VideoParticipant))
deriving DecidableEq, Repr

/-- Go `new(Room)`: the zero value. -/
def Room.new : Room :=
  { Sid := "", AccountSid := "", Type_ := "", EnableTurn := false, UniqueName := "",
    StatusCallback := "", StatusCallbackMethod := "", MaxParticipants := 0,
    RecordParticipantsOnConnect := false, Duration := 0, MediaRegion := "", Status := "",
    DateCreated := ⟨""⟩, DateUpdated := ⟨""⟩, EndTime := ⟨""⟩, URL := "", Links := [] }

/-- Go `new(RoomPage)`: the zero value. -/
def RoomPage.new : RoomPage := { Meta := ⟨none⟩, Rooms := none }

/-- Go `new(RoomParticipantPage)`: the zero value. -/
def RoomParticipantPage.new : RoomParticipantPage := { Meta := ⟨none⟩, Participants := none }

/-- Go `new(VideoParticipantPage)`: the zero value. -/
def VideoParticipantPage.new : VideoParticipantPage := { Meta := ⟨none⟩, Participants := none }

/-- Go `len` of a slice: the nil slice has length zero. -/
def sliceLen {α : Type} : Option (List α) → Nat
  | none => 0
  | some xs => xs.length

/-! ## The client -/

/-- The dynamic type of the output target (`v interface{}`) handed to a client
call: nil, or a pointer to one of the structs of the façades. -/
inductive Kind where
  | nil
  | room
  | roomPage
  | roomParticipantPage
  | videoParticipantPage
deriving DecidableEq, Repr

/-- The value behind an output target of the given dynamic type. -/
def Kind.Target : Kind → Type
  | .nil => Unit
  | .room => Room
  | .roomPage => RoomPage
  | .roomParticipantPage => RoomParticipantPage
  | .videoParticipantPage => VideoParticipantPage

/-- One call on the client, with its arguments and the dynamic type of its
output target. -/
inductive Call where
  | GetResource (ctx : Context) (pathPart sidOrUniqueName : String) (v : Kind)
  | CreateResource (ctx : Context) (pathPart : String) (data : Values) (v : Kind)
  | UpdateResource (ctx : Context) (pathPart sid : String) (data : Values) (v : Kind)
  | ListResource (ctx : Context) (pathPart : String) (data : Values) (v : Kind)
  | GetNextPage (ctx : Context) (fullUri : String) (v : Kind)
deriving DecidableEq, Repr

/-- The log of the client calls made so far, oldest first. -/
abbrev World := List Call

/-- Modelled from the spec: the struct `Client` is declared outside these two
files.  What the transport and the server answer is a parameter: `respond`
gives, for the calls already made and the call being made, what the call
leaves in its output target (given what the target held) and the error it
returns. -/
structure Client where
  respond : World → Call → (k : Kind) → k.Target → k.Target × Option Error

/-- Modelled from the spec: `Client.GetResource` is defined outside these two
files: "issues GET to `path/idOrUniqueName`; deserializes JSON body into
`out`", one request per call. -/
def Client.GetResource (c : Client) (ctx : Context) (pathPart sidOrUniqueName : String)
    (k : Kind) (v : k.Target) (w : World) : (k.Target × Option Error) × World :=
  let call := Call.GetResource ctx pathPart sidOrUniqueName k
  (c.respond w call k v, w ++ [call])

/-- Modelled from the spec: `Client.CreateResource` is defined outside these
two files: "issues POST to `path`; ... deserializes response into `out`",
one request per call. -/
def Client.CreateResource (c : Client) (ctx : Context) (pathPart : String) (data : Values)
    (k : Kind) (v : k.Target) (w : World) : (k.Target × Option Error) × World :=
  let call := Call.CreateResource ctx pathPart data k
  (c.respond w call k v, w ++ [call])

/-- Modelled from the spec: `Client.UpdateResource` is defined outside these
two files: "issues POST to `path/id`; `out` may be nil when the caller
only needs success/failure", one request per call. -/
def Client.UpdateResource (c : Client) (ctx : Context) (pathPart sid : String) (data : Values)
    (k : Kind) (v : k.Target) (w : World) : (k.Target × Option Error) × World :=
  let call := Call.UpdateResource ctx pathPart sid data k
  (c.respond w call k v, w ++ [call])

/-- Modelled from the spec: `Client.ListResource` is defined outside these two
files: "issues GET to `path` with query parameters; deserializes a page
envelope into `outPage`", one request per call. -/
def Client.ListResource (c : Client) (ctx : Context) (pathPart : String) (data : Values)
    (k : Kind) (v : k.Target) (w : World) : (k.Target × Option Error) × World :=
  let call := Call.ListResource ctx pathPart data k
  (c.respond w call k v, w ++ [call])

/-- Modelled from the spec: the List call of the page iterator "using the
current URI (full query+path override when set)" is defined outside these two
files; one request per call. -/
def Client.GetNextPage (c : Client) (ctx : Context) (fullUri : String)
    (k : Kind) (v : k.Target) (w : World) : (k.Target × Option Error) × World :=
  let call := Call.GetNextPage ctx fullUri k
  (c.respond w call k v, w ++ [call])

/-! ## The page iterator -/

/-- Modelled from the spec: the state of the page iterator, declared outside
these two files: "State machine with two states: `Active` (holds a "next
URI", possibly empty meaning "first page") and `Exhausted` (terminal)". -/
inductive IterState where
  | Active (nextURI : String)
  | Exhausted
deriving DecidableEq, Repr

/-- Modelled from the spec: the struct `PageIterator` is declared outside these
two files: the client it shares, the original base path and parameters of
the list query, and its single cursor field. -/
structure PageIterator where
  client : Client
  data : Values
  pathPart : String
  state : IterState

/-- Modelled from the spec: `NewPageIterator` is defined outside these two
files: an iterator "created per list query", active on the first page. -/
def NewPageIterator (client : Client) (data : Values) (pathPart : String) : PageIterator :=
  { client := client, data := data, pathPart := pathPart, state := .Active "" }

/-- Modelled from the spec: `PageIterator.Next` is defined outside these two
files: "if state is `Exhausted`, fails immediately with
`NoMoreResultsError` without any network call.  Otherwise issues a List call
using the current URI (full query+path override when set, else the original
base path+params), decodes the page"; "a failed List call leaves the
iterator's cursor unchanged".  The move of the cursor after a decoded page is
`SetNextPageURI`, which the typed iterators call. -/
def PageIterator.Next (p : PageIterator) (ctx : Context) (k : Kind) (v : k.Target) (w : World) :
    ((k.Target × Option Error) × PageIterator) × World :=
  match p.state with
  | .Exhausted => (((v, some Error.NoMoreResults), p), w)
  | .Active nextURI =>
    if nextURI = "" then
      let res := p.client.ListResource ctx p.pathPart p.data k v w
      ((res.1, p), res.2)
    else
      let res := p.client.GetNextPage ctx nextURI k v w
      ((res.1, p), res.2)

/-- Modelled from the spec: `PageIterator.SetNextPageURI` is defined outside
these two files: "if the decoded page's next-page reference is
empty/absent, transitions to `Exhausted` ...; else stores the next-page
reference as new cursor for the subsequent call". -/
def PageIterator.SetNextPageURI (p : PageIterator) (npuri : Option String) : PageIterator :=
  match npuri with
  | none => { p with state := .Exhausted }
  | some uri => if uri = "" then { p with state := .Exhausted } else { p with state := .Active uri }

/-! ## room.go -/

def roomPathPart : String := "Rooms"

def participantsPath : String := roomPathPart ++ "/%s/Participants"

structure RoomService where
  client : Client

/-- The function `RoomService.Get`: finds a single Room resource by its sid or unique
name. -/
def RoomService.Get (r : RoomService) (ctx : Context) (sidOrUniqueName : String) (w : World) :
    (Option Room × Option Error) × World :=
  let room := Room.new
  let res := r.client.GetResource ctx roomPathPart sidOrUniqueName .room room w
  ((some res.1.1, res.1.2), res.2)

/-- The function `RoomService.Complete`: completes an in-progress Room with the given
sid. -/
def RoomService.Complete (r : RoomService) (ctx : Context) (sid : String) (w : World) :
    (Option Room × Option Error) × World :=
  let room := Room.new
  let v : Values := []
  let v := v.Set "Status" StatusCompleted
  let res := r.client.UpdateResource ctx roomPathPart sid v .room room w
  ((some res.1.1, res.1.2), res.2)

/-- The function `RoomService.Create`: creates a room with the given `url.Values`. -/
def RoomService.Create (r : RoomService) (ctx : Context) (data : Values) (w : World) :
    (Option Room × Option Error) × World :=
  let room := Room.new
  let res := r.client.CreateResource ctx roomPathPart data .room room w
  ((some res.1.1, res.1.2), res.2)

/-- The function `RoomService.ListParticipants`: takes a room and returns the participants
in the room. -/
def RoomService.ListParticipants (r : RoomService) (ctx : Context) (roomName : String)
    (data : Values) (w : World) :
    (Option (List (Option RoomParticipant)) × Option Error) × World :=
  let page := RoomParticipantPage.new
  let path := Sprintf participantsPath [roomName]
  let res := r.client.ListResource ctx path data .roomParticipantPage page w
  match res.1.2 with
  | some err => ((none, some err), res.2)
  | none => ((res.1.1.Participants, none), res.2)

/-- The function `RoomService.RemoveParticipant`: kicks a participant from a room. -/
def RoomService.RemoveParticipant (r : RoomService) (ctx : Context)
    (roomName particpantIdentity : String) (w : World) : Option Error × World :=
  let v : Values := []
  let v := v.Set "Status" "disconnected"
  let path := Sprintf participantsPath [roomName]
  let res := r.client.UpdateResource ctx path particpantIdentity v .nil () w
  (res.1.2, res.2)

structure RoomPageIterator where
  p : PageIterator

/-- The function `RoomService.GetPageIterator`: returns an iterator which can be used to
retrieve pages. -/
def RoomService.GetPageIterator (r : RoomService) (data : Values) : RoomPageIterator :=
  let iter := NewPageIterator r.client data roomPathPart
  { p := iter }

/-- The function `RoomPageIterator.Next`: returns the next page of resources; the second
component is the iterator after the call. -/
def RoomPageIterator.Next (r : RoomPageIterator) (ctx : Context) (w : World) :
    ((Option RoomPage × Option Error) × RoomPageIterator) × World :=
  let rp := RoomPage.new
  let res := r.p.Next ctx .roomPage rp w
  match res.1.1.2 with
  | some err => (((none, some err), { p := res.1.2 }), res.2)
  | none =>
    let rp : RoomPage := res.1.1.1
    (((some rp, none), { p := res.1.2.SetNextPageURI rp.Meta.NextPageURL }), res.2)

/-- The function `RoomService.GetPage`: returns a list of rooms. -/
def RoomService.GetPage (r : RoomService) (ctx : Context) (data : Values) (w : World) :
    (Option RoomPage × Option Error) × World :=
  let res := (r.GetPageIterator data).Next ctx w
  (res.1.1, res.2)

/-! ## video_participants.go -/

structure VideoParticipantService where
  client : Client

def videoParticipantsPathPart : String := "Rooms/%s/Participants"

structure VideoParticipantPageIterator where
  p : PageIterator

/-- The function `VideoParticipantService.GetPageIterator`: returns an iterator which can
be used to retrieve pages. -/
def VideoParticipantService.GetPageIterator (vr : VideoParticipantService) (roomSid : String)
    (data : Values) : VideoParticipantPageIterator :=
  let path := Sprintf videoParticipantsPathPart [roomSid]
  let iter := NewPageIterator vr.client data path
  { p := iter }

/-- The function `VideoParticipantPageIterator.Next`: returns the next page of resources;
the second component is the iterator after the call. -/
def VideoParticipantPageIterator.Next (vr : VideoParticipantPageIterator) (ctx : Context)
    (w : World) :
    ((Option VideoParticipantPage × Option Error) × VideoParticipantPageIterator) × World :=
  let vrp := VideoParticipantPage.new
  let res := vr.p.Next ctx .videoParticipantPage vrp w
  match res.1.1.2 with
  | some err => (((none, some err), { p := res.1.2 }), res.2)
  | none =>
    let vrp : VideoParticipantPage := res.1.1.1
    (((some vrp, none), { p := res.1.2.SetNextPageURI vrp.Meta.NextPageURL }), res.2)

/-- The function `VideoParticipantService.GetPageForRoom`: returns a list of participants
for a given room. -/
def VideoParticipantService.GetPageForRoom (vr : VideoParticipantService) (ctx : Context)
    (roomSid : String) (data : Values) (w : World) :
    (Option VideoParticipantPage × Option Error) × World :=
  let res := (vr.GetPageIterator roomSid data).Next ctx w
  (res.1.1, res.2)

/-- Successive `RoomPageIterator.Next` calls on one iterator, one per context
of the list, each on the iterator and the log the previous call left: the
results in order, the final iterator and the final log. -/
def RoomPageIterator.NextMany (r : RoomPageIterator) :
    List Context → World → (List (Option RoomPage × Option Error) × RoomPageIterator) × World
  | [], w => (([], r), w)
  | ctx :: ctxs, w =>
    let res := r.Next ctx w
    let rest := RoomPageIterator.NextMany res.1.2 ctxs res.2
    ((res.1.1 :: rest.1.1, rest.1.2), rest.2)


/-! ## Concrete clients -/

/-- A client whose every call is cut short after it has written the sid of
the Room into a `*Room` target, and fails with the cancellation error. -/
def canceledClient : Client :=
  { respond := fun _ _ k v =>
      match k, v with
      | .room, room => ({ room with Sid := "RM1" }, some Error.Canceled)
      | _, v => (v, some Error.Canceled) }

/-- A client whose every call fails at the transport and leaves the output
target as it was. -/
def refusingClient : Client :=
  { respond := fun _ _ _ v => (v, some (Error.Transport "connection refused")) }

/-- The next-page URL served with the first page of rooms. -/
def roomsPage2URL : String :=
  "https://video.twilio.com/v1/Rooms?PageSize=2&Page=1&PageToken=PARM2"

/-- The next-page URL served with the second page of rooms. -/
def roomsPage3URL : String :=
  "https://video.twilio.com/v1/Rooms?PageSize=2&Page=2&PageToken=PARM4"

/-- The first page of a listing of five rooms, two rooms a page. -/
def roomsPage1 : RoomPage :=
  { Meta := ⟨some roomsPage2URL⟩,
    Rooms := some [some { Room.new with Sid := "RM1" }, some { Room.new with Sid := "RM2" }] }

/-- The second page of the listing. -/
def roomsPage2 : RoomPage :=
  { Meta := ⟨some roomsPage3URL⟩,
    Rooms := some [some { Room.new with Sid := "RM3" }, some { Room.new with Sid := "RM4" }] }

/-- The third and last page of the listing: its next-page URL is null. -/
def roomsPage3 : RoomPage :=
  { Meta := ⟨none⟩, Rooms := some [some { Room.new with Sid := "RM5" }] }

/-- The next-page URL served with the first page of participants. -/
def participantsPage2URL : String :=
  "https://video.twilio.com/v1/Rooms/RM1/Participants?PageSize=1&Page=1&PageToken=PAPA1"

/-- A first page of participants that has a next page. -/
def participantsPage1 : VideoParticipantPage :=
  { Meta := ⟨some participantsPage2URL⟩,
    Participants := some [some
      { Sid := "PA1", Duration := 0, Status := "connected", DateCreated := ⟨""⟩,
        EndTime := ⟨""⟩, RoomSid := "RM1", URL := "", Size := 0, Identity := "alice",
        Links := [] }] }

/-- A client in front of a server that holds three pages of rooms and serves
a first page of participants for every room. -/
def pagedClient : Client :=
  { respond := fun _ c k v =>
      match k, v with
      | .roomPage, v =>
        match c with
        | .ListResource _ pathPart _ _ =>
          if pathPart = "Rooms" then (roomsPage1, none) else (v, some Error.NotFound)
        | .GetNextPage _ fullUri _ =>
          if fullUri = roomsPage2URL then (roomsPage2, none)
          else if fullUri = roomsPage3URL then (roomsPage3, none)
          else (v, some Error.NotFound)
        | _ => (v, some Error.NotFound)
      | .videoParticipantPage, _ => (participantsPage1, none)
      | _, v => (v, some Error.NotFound) }

/-- A client in front of a server with no rooms: every list query is answered
with an empty page whose next-page URL is null. -/
def emptyClient : Client :=
  { respond := fun _ _ k v =>
      match k, v with
      | .roomPage, _ => ({ Meta := ⟨none⟩, Rooms := some [] }, none)
      | _, v => (v, none) }

/-! ## Path templates -/

/-- The participants path template of `room.go`, filled in with a room name. -/
theorem Sprintf_participantsPath (roomName : String) :
    Sprintf participantsPath [roomName] = "Rooms/" ++ roomName ++ "/Participants" := by
  unfold Sprintf
  rw [show participantsPath.data = "Rooms/%s/Participants".data by decide]
  apply String.ext
  simp [sprintfChars]

/-- The participants path template of `video_participants.go`, filled in with
a room sid. -/
theorem Sprintf_videoParticipantsPathPart (roomSid : String) :
    Sprintf videoParticipantsPathPart [roomSid] = "Rooms/" ++ roomSid ++ "/Participants" := by
  unfold Sprintf
  rw [show videoParticipantsPathPart.data = "Rooms/%s/Participants".data by decide]
  apply String.ext
  simp [sprintfChars]

/-! ## Single-resource operations -/

/-- C1: for every context and room sid, `RoomService.Complete` appends exactly
one call to the client log, an `UpdateResource` with path part `"Rooms"`, the
sid as id, a `*Room` output target and form values whose only key is
`"Status"` with the single value `"completed"` (`StatusCompleted`); what it
returns is what that call left in the target and the error of that call. -/
theorem Complete_sends_only_status_completed (r : RoomService) (ctx : Context) (sid : String)
    (w : World) :
    ∃ v : Values,
      (r.Complete ctx sid w).2 = w ++ [Call.UpdateResource ctx "Rooms" sid v Kind.room] ∧
      v.keys = ["Status"] ∧
      v.lookup "Status" = some [StatusCompleted] ∧
      StatusCompleted = "completed" ∧
      v = [("Status", ["completed"])] ∧
      (r.Complete ctx sid w).1 =
        (some (r.client.respond w (Call.UpdateResource ctx "Rooms" sid v Kind.room)
            Kind.room Room.new).1,
          (r.client.respond w (Call.UpdateResource ctx "Rooms" sid v Kind.room)
            Kind.room Room.new).2) := by
  refine ⟨[("Status", ["completed"])], ?_, by decide, by decide, by decide, rfl, ?_⟩
  · rfl
  · rfl

/-- C2: for every room name and participant identity,
`RoomService.RemoveParticipant` appends exactly one call to the client log, an
`UpdateResource` with path `Rooms/<roomName>/Participants`, the identity as
id, the single form field `Status=disconnected` and a nil output target; its
result is the error (or nil) of that call. -/
theorem RemoveParticipant_sends_status_disconnected (r : RoomService) (ctx : Context)
    (roomName particpantIdentity : String) (w : World) :
    (r.RemoveParticipant ctx roomName particpantIdentity w).2 =
        w ++ [Call.UpdateResource ctx ("Rooms/" ++ roomName ++ "/Participants")
          particpantIdentity [("Status", ["disconnected"])] Kind.nil] ∧
      (r.RemoveParticipant ctx roomName particpantIdentity w).1 =
        (r.client.respond w
          (Call.UpdateResource ctx ("Rooms/" ++ roomName ++ "/Participants")
            particpantIdentity [("Status", ["disconnected"])] Kind.nil) Kind.nil ()).2 := by
  simp only [RoomService.RemoveParticipant, Client.UpdateResource, Sprintf_participantsPath]
  exact ⟨rfl, rfl⟩

/-- C3: for every sid or unique name, `RoomService.Get` appends exactly one
call to the client log, a `GetResource` with path part `"Rooms"` and the
identifier unchanged, and the Room it returns is exactly the value that call
left in the output target (so, when the call succeeds, the decoded Room with no
field altered), next to the error of that call. -/
theorem Get_one_call_returns_decoded (r : RoomService) (ctx : Context) (sidOrUniqueName : String)
    (w : World) :
    (r.Get ctx sidOrUniqueName w).2 =
        w ++ [Call.GetResource ctx "Rooms" sidOrUniqueName Kind.room] ∧
      (r.Get ctx sidOrUniqueName w).1.1 =
        some (r.client.respond w (Call.GetResource ctx "Rooms" sidOrUniqueName Kind.room)
          Kind.room Room.new).1 ∧
      (r.Get ctx sidOrUniqueName w).1.2 =
        (r.client.respond w (Call.GetResource ctx "Rooms" sidOrUniqueName Kind.room)
          Kind.room Room.new).2 :=
  ⟨rfl, rfl, rfl⟩

/-- C10: for every room name and query values, `RoomService.ListParticipants`
appends exactly one call to the client log, a `ListResource` with path
`Rooms/<roomName>/Participants` (the path part of the iterator that
`VideoParticipantService.GetPageIterator` builds for that room) and the given
query values; when the call succeeds it returns the `Participants` slice of
the decoded page as it is, whatever the page's next-page URL, and when the
call fails it returns the nil slice with the error. -/
theorem ListParticipants_first_page (r : RoomService) (vr : VideoParticipantService)
    (ctx : Context) (roomName : String) (data vdata : Values) (w : World) :
    (r.ListParticipants ctx roomName data w).2 =
        w ++ [Call.ListResource ctx ("Rooms/" ++ roomName ++ "/Participants") data
          Kind.roomParticipantPage] ∧
      (vr.GetPageIterator roomName vdata).p.pathPart = "Rooms/" ++ roomName ++ "/Participants" ∧
      (r.ListParticipants ctx roomName data w).1 =
        (match (r.client.respond w
            (Call.ListResource ctx ("Rooms/" ++ roomName ++ "/Participants") data
              Kind.roomParticipantPage) Kind.roomParticipantPage RoomParticipantPage.new) with
          | (page, none) => (page.Participants, none)
          | (_, some err) => (none, some err)) := by
  simp only [RoomService.ListParticipants, Client.ListResource, Sprintf_participantsPath,
    VideoParticipantService.GetPageIterator, NewPageIterator, Sprintf_videoParticipantsPathPart]
  refine ⟨?_, trivial, ?_⟩
  · split <;> rfl
  · split <;> split <;> simp_all


/-! ## Errors of the single-resource operations -/

/-- C8, as stated, fails: on a client whose call is cancelled after part of
the Room was decoded, `Get`, `Create` and `Complete` each hand back a non-nil
Room (holding the part that was decoded) together with the error. -/
theorem Get_Create_Complete_return_room_with_error :
    (RoomService.Get ⟨canceledClient⟩ ⟨0⟩ "RM1" []).1 =
        (some { Room.new with Sid := "RM1" }, some Error.Canceled) ∧
      (RoomService.Create ⟨canceledClient⟩ ⟨0⟩ [("UniqueName", ["standup"])] []).1 =
        (some { Room.new with Sid := "RM1" }, some Error.Canceled) ∧
      (RoomService.Complete ⟨canceledClient⟩ ⟨0⟩ "RM1" []).1 =
        (some { Room.new with Sid := "RM1" }, some Error.Canceled) := by
  refine ⟨?_, ?_, ?_⟩ <;> rfl

/-- C8, amended: `Get`, `Create` and `Complete` always return a non-nil Room,
also next to an error: the Room they allocated as output target, holding what
the client call left in it, together with the error of that call. -/
theorem Get_Create_Complete_return_target_and_error (r : RoomService) (ctx : Context)
    (sid : String) (data : Values) (w : World) :
    (r.Get ctx sid w).1 =
        (some (r.client.GetResource ctx roomPathPart sid Kind.room Room.new w).1.1,
          (r.client.GetResource ctx roomPathPart sid Kind.room Room.new w).1.2) ∧
      (r.Create ctx data w).1 =
        (some (r.client.CreateResource ctx roomPathPart data Kind.room Room.new w).1.1,
          (r.client.CreateResource ctx roomPathPart data Kind.room Room.new w).1.2) ∧
      (r.Complete ctx sid w).1 =
        (some (r.client.UpdateResource ctx roomPathPart sid [("Status", ["completed"])]
            Kind.room Room.new w).1.1,
          (r.client.UpdateResource ctx roomPathPart sid [("Status", ["completed"])]
            Kind.room Room.new w).1.2) :=
  ⟨rfl, rfl, rfl⟩

/-! ## The page iterator -/

/-- The fetch of the page iterator leaves the iterator as it was. -/
theorem PageIterator.Next_iterator (p : PageIterator) (ctx : Context) (k : Kind) (v : k.Target)
    (w : World) : (p.Next ctx k v w).1.2 = p := by
  unfold PageIterator.Next
  split
  · rfl
  · split <;> rfl

/-- The fetch of the page iterator makes no call when it is exhausted, and
otherwise one call: `ListResource` on the first page, `GetNextPage` with the
stored URI afterwards. -/
theorem PageIterator.Next_log (p : PageIterator) (ctx : Context) (k : Kind) (v : k.Target)
    (w : World) :
    (p.Next ctx k v w).2 =
      match p.state with
      | .Exhausted => w
      | .Active nextURI =>
        if nextURI = "" then w ++ [Call.ListResource ctx p.pathPart p.data k]
        else w ++ [Call.GetNextPage ctx nextURI k] := by
  unfold PageIterator.Next
  split
  · rfl
  · split <;> rfl

/-- An exhausted `RoomPageIterator` answers `NoMoreResults`, without a call
and without moving. -/
theorem RoomPageIterator.Next_exhausted (r : RoomPageIterator) (ctx : Context) (w : World)
    (h : r.p.state = IterState.Exhausted) :
    r.Next ctx w = (((none, some Error.NoMoreResults), r), w) := by
  obtain ⟨p⟩ := r
  simp only at h
  simp [RoomPageIterator.Next, PageIterator.Next, h]

/-- Every `Next` call on an exhausted `RoomPageIterator` answers
`NoMoreResults` and the log stays as it is. -/
theorem RoomPageIterator.NextMany_exhausted (r : RoomPageIterator) (ctxs : List Context)
    (w : World) (h : r.p.state = IterState.Exhausted) :
    r.NextMany ctxs w = ((ctxs.map (fun _ => (none, some Error.NoMoreResults)), r), w) := by
  induction ctxs with
  | nil => rfl
  | cons ctx ctxs ih =>
    simp [RoomPageIterator.NextMany, RoomPageIterator.Next_exhausted r ctx w h, ih]


/-- A successful `RoomPageIterator.Next` on the first page: one `ListResource`
call, the decoded page, the cursor moved by `SetNextPageURI`. -/
theorem RoomPageIterator.Next_first (r : RoomPageIterator) (ctx : Context) (w : World)
    (pg : RoomPage) (hs : r.p.state = IterState.Active "")
    (hr : r.p.client.respond w (Call.ListResource ctx r.p.pathPart r.p.data Kind.roomPage)
      Kind.roomPage RoomPage.new = (pg, none)) :
    r.Next ctx w =
      (((some pg, none), { p := r.p.SetNextPageURI pg.Meta.NextPageURL }),
        w ++ [Call.ListResource ctx r.p.pathPart r.p.data Kind.roomPage]) := by
  obtain ⟨p⟩ := r
  simp only at hs hr
  simp [RoomPageIterator.Next, PageIterator.Next, hs, Client.ListResource, hr]

/-- A successful `RoomPageIterator.Next` on a stored next-page URI: one
`GetNextPage` call with that URI, the decoded page, the cursor moved by
`SetNextPageURI`. -/
theorem RoomPageIterator.Next_following (r : RoomPageIterator) (ctx : Context) (w : World)
    (u : String) (pg : RoomPage) (hs : r.p.state = IterState.Active u) (hu : u ≠ "")
    (hr : r.p.client.respond w (Call.GetNextPage ctx u Kind.roomPage)
      Kind.roomPage RoomPage.new = (pg, none)) :
    r.Next ctx w =
      (((some pg, none), { p := r.p.SetNextPageURI pg.Meta.NextPageURL }),
        w ++ [Call.GetNextPage ctx u Kind.roomPage]) := by
  obtain ⟨p⟩ := r
  simp only at hs hr
  simp [RoomPageIterator.Next, PageIterator.Next, hs, hu, Client.GetNextPage, hr]

/-- C4: when the underlying `PageIterator.Next` fails, `RoomPageIterator.Next`
and `VideoParticipantPageIterator.Next` return a nil page with that error, the
iterator is the one the failed fetch left (no `SetNextPageURI`), so its cursor
is the one it had before the call, and a retried `Next` does what `Next` on
the iterator before the failure does: it re-attempts the same page. -/
theorem Next_failure_leaves_cursor (r : RoomPageIterator) (vr : VideoParticipantPageIterator)
    (ctx : Context) (w : World) (e e' : Error)
    (h : (r.p.Next ctx Kind.roomPage RoomPage.new w).1.1.2 = some e)
    (h' : (vr.p.Next ctx Kind.videoParticipantPage VideoParticipantPage.new w).1.1.2 = some e') :
    ((r.Next ctx w).1.1 = (none, some e) ∧
      (r.Next ctx w).1.2.p = (r.p.Next ctx Kind.roomPage RoomPage.new w).1.2 ∧
      (r.Next ctx w).1.2.p.state = r.p.state ∧
      (r.Next ctx w).1.2 = r ∧
      ∀ (ctx' : Context) (w' : World), (r.Next ctx w).1.2.Next ctx' w' = r.Next ctx' w') ∧
    ((vr.Next ctx w).1.1 = (none, some e') ∧
      (vr.Next ctx w).1.2.p =
        (vr.p.Next ctx Kind.videoParticipantPage VideoParticipantPage.new w).1.2 ∧
      (vr.Next ctx w).1.2.p.state = vr.p.state ∧
      (vr.Next ctx w).1.2 = vr ∧
      ∀ (ctx' : Context) (w' : World), (vr.Next ctx w).1.2.Next ctx' w' = vr.Next ctx' w') := by
  have hr : r.Next ctx w =
      (((none, some e), { p := (r.p.Next ctx Kind.roomPage RoomPage.new w).1.2 }),
        (r.p.Next ctx Kind.roomPage RoomPage.new w).2) := by
    simp only [RoomPageIterator.Next, h]
  have hv : vr.Next ctx w =
      (((none, some e'),
          { p := (vr.p.Next ctx Kind.videoParticipantPage VideoParticipantPage.new w).1.2 }),
        (vr.p.Next ctx Kind.videoParticipantPage VideoParticipantPage.new w).2) := by
    simp only [VideoParticipantPageIterator.Next, h']
  rw [hr, hv]
  simp [PageIterator.Next_iterator]

/-- C5: when the underlying page fetch succeeds, `RoomPageIterator.Next` and
`VideoParticipantPageIterator.Next` return the decoded page and move the
cursor with `SetNextPageURI` on exactly the page's `Meta.NextPageURL`: a
non-empty URL is stored as it is and the following fetch is a `GetNextPage`
call with that very URL; a null or empty one exhausts the iterator. -/
theorem Next_success_stores_next_page_url (r : RoomPageIterator)
    (vr : VideoParticipantPageIterator) (ctx : Context) (w : World)
    (h : (r.p.Next ctx Kind.roomPage RoomPage.new w).1.1.2 = none)
    (h' : (vr.p.Next ctx Kind.videoParticipantPage VideoParticipantPage.new w).1.1.2 = none) :
    ((r.Next ctx w).1.1 =
        (some (r.p.Next ctx Kind.roomPage RoomPage.new w).1.1.1, none) ∧
      (r.Next ctx w).1.2.p =
        r.p.SetNextPageURI
          ((r.p.Next ctx Kind.roomPage RoomPage.new w).1.1.1 : RoomPage).Meta.NextPageURL ∧
      (∀ u : String,
        ((r.p.Next ctx Kind.roomPage RoomPage.new w).1.1.1 : RoomPage).Meta.NextPageURL = some u →
        u ≠ "" →
          (r.Next ctx w).1.2.p.state = IterState.Active u ∧
          ∀ (ctx' : Context) (w' : World),
            ((r.Next ctx w).1.2.Next ctx' w').2 =
              w' ++ [Call.GetNextPage ctx' u Kind.roomPage]) ∧
      (((r.p.Next ctx Kind.roomPage RoomPage.new w).1.1.1 : RoomPage).Meta.NextPageURL = none ∨
        ((r.p.Next ctx Kind.roomPage RoomPage.new w).1.1.1 : RoomPage).Meta.NextPageURL = some "" →
          (r.Next ctx w).1.2.p.state = IterState.Exhausted)) ∧
    ((vr.Next ctx w).1.1 =
        (some (vr.p.Next ctx Kind.videoParticipantPage VideoParticipantPage.new w).1.1.1, none) ∧
      (vr.Next ctx w).1.2.p =
        vr.p.SetNextPageURI
          ((vr.p.Next ctx Kind.videoParticipantPage VideoParticipantPage.new w).1.1.1 :
            VideoParticipantPage).Meta.NextPageURL ∧
      (∀ u : String,
        ((vr.p.Next ctx Kind.videoParticipantPage VideoParticipantPage.new w).1.1.1 :
            VideoParticipantPage).Meta.NextPageURL = some u →
        u ≠ "" →
          (vr.Next ctx w).1.2.p.state = IterState.Active u ∧
          ∀ (ctx' : Context) (w' : World),
            ((vr.Next ctx w).1.2.Next ctx' w').2 =
              w' ++ [Call.GetNextPage ctx' u Kind.videoParticipantPage]) ∧
      (((vr.p.Next ctx Kind.videoParticipantPage VideoParticipantPage.new w).1.1.1 :
            VideoParticipantPage).Meta.NextPageURL = none ∨
        ((vr.p.Next ctx Kind.videoParticipantPage VideoParticipantPage.new w).1.1.1 :
            VideoParticipantPage).Meta.NextPageURL = some "" →
          (vr.Next ctx w).1.2.p.state = IterState.Exhausted)) := by
  have hr : r.Next ctx w =
      (((some (r.p.Next ctx Kind.roomPage RoomPage.new w).1.1.1, none),
          { p := (r.p.Next ctx Kind.roomPage RoomPage.new w).1.2.SetNextPageURI
              ((r.p.Next ctx Kind.roomPage RoomPage.new w).1.1.1 : RoomPage).Meta.NextPageURL }),
        (r.p.Next ctx Kind.roomPage RoomPage.new w).2) := by
    simp only [RoomPageIterator.Next, h]
  have hv : vr.Next ctx w =
      (((some (vr.p.Next ctx Kind.videoParticipantPage VideoParticipantPage.new w).1.1.1, none),
          { p := (vr.p.Next ctx Kind.videoParticipantPage
                VideoParticipantPage.new w).1.2.SetNextPageURI
              ((vr.p.Next ctx Kind.videoParticipantPage VideoParticipantPage.new w).1.1.1 :
                VideoParticipantPage).Meta.NextPageURL }),
        (vr.p.Next ctx Kind.videoParticipantPage VideoParticipantPage.new w).2) := by
    simp only [VideoParticipantPageIterator.Next, h']
  rw [hr, hv]
  simp only [PageIterator.Next_iterator]
  refine ⟨⟨trivial, trivial, ?_, ?_⟩, ⟨trivial, trivial, ?_, ?_⟩⟩
  · intro u hu hne
    rw [hu]
    refine ⟨by simp [PageIterator.SetNextPageURI, hne], fun ctx' w' => ?_⟩
    simp [RoomPageIterator.Next, PageIterator.Next, PageIterator.SetNextPageURI, hne,
      Client.GetNextPage]
    split <;> rfl
  · rintro (hn | hn) <;> rw [hn] <;> simp [PageIterator.SetNextPageURI]
  · intro u hu hne
    rw [hu]
    refine ⟨by simp [PageIterator.SetNextPageURI, hne], fun ctx' w' => ?_⟩
    simp [VideoParticipantPageIterator.Next, PageIterator.Next, PageIterator.SetNextPageURI, hne,
      Client.GetNextPage]
    split <;> rfl
  · rintro (hn | hn) <;> rw [hn] <;> simp [PageIterator.SetNextPageURI]


/-- Storing a non-empty next-page URI makes it the cursor and changes nothing
else. -/
theorem PageIterator.SetNextPageURI_some (p : PageIterator) (u : String) (hu : u ≠ "") :
    p.SetNextPageURI (some u) = { p with state := IterState.Active u } := by
  simp [PageIterator.SetNextPageURI, hu]

/-- C6: on a client that answers the list query on `"Rooms"` with page 1 and
the next-page URLs of pages 1 and 2 with pages 2 and 3, where pages 1 and 2
carry a non-empty next-page URL and page 3 a null one, four successive `Next`
calls on one iterator from `RoomService.GetPageIterator` return pages 1, 2 and 3
in order and then fail with `NoMoreResults`; each of the first three adds
exactly one call to the client log (the list call, then the two next-page
URLs as served), the fourth adds none; the third page returned has a null
next-page URL. -/
theorem three_pages_then_NoMoreResults (r : RoomService) (data : Values)
    (p1 p2 p3 : RoomPage) (u1 u2 : String) (c1 c2 c3 c4 : Context) (w : World)
    (h1 : ∀ (ctx : Context) (hist : World),
      r.client.respond hist (Call.ListResource ctx "Rooms" data Kind.roomPage)
        Kind.roomPage RoomPage.new = (p1, none))
    (h2 : ∀ (ctx : Context) (hist : World),
      r.client.respond hist (Call.GetNextPage ctx u1 Kind.roomPage)
        Kind.roomPage RoomPage.new = (p2, none))
    (h3 : ∀ (ctx : Context) (hist : World),
      r.client.respond hist (Call.GetNextPage ctx u2 Kind.roomPage)
        Kind.roomPage RoomPage.new = (p3, none))
    (hu1 : p1.Meta.NextPageURL = some u1) (hne1 : u1 ≠ "")
    (hu2 : p2.Meta.NextPageURL = some u2) (hne2 : u2 ≠ "")
    (hu3 : p3.Meta.NextPageURL = none) :
    ((r.GetPageIterator data).NextMany [c1, c2, c3, c4] w).1.1 =
        [(some p1, none), (some p2, none), (some p3, none), (none, some Error.NoMoreResults)] ∧
      ((r.GetPageIterator data).NextMany [c1] w).2 =
        w ++ [Call.ListResource c1 "Rooms" data Kind.roomPage] ∧
      ((r.GetPageIterator data).NextMany [c1, c2] w).2 =
        w ++ [Call.ListResource c1 "Rooms" data Kind.roomPage] ++
          [Call.GetNextPage c2 u1 Kind.roomPage] ∧
      ((r.GetPageIterator data).NextMany [c1, c2, c3] w).2 =
        w ++ [Call.ListResource c1 "Rooms" data Kind.roomPage] ++
          [Call.GetNextPage c2 u1 Kind.roomPage] ++ [Call.GetNextPage c3 u2 Kind.roomPage] ∧
      ((r.GetPageIterator data).NextMany [c1, c2, c3, c4] w).2 =
        ((r.GetPageIterator data).NextMany [c1, c2, c3] w).2 ∧
      (((r.GetPageIterator data).NextMany [c1, c2, c3] w).1.1.getLast?.bind Prod.fst).map
        (fun pg => pg.Meta.NextPageURL) = some none := by
  have s1 : ∀ w, (r.GetPageIterator data).Next c1 w =
      (((some p1, none),
          { p := { (NewPageIterator r.client data roomPathPart) with
              state := IterState.Active u1 } }),
        w ++ [Call.ListResource c1 "Rooms" data Kind.roomPage]) := by
    intro w
    rw [RoomPageIterator.Next_first (r.GetPageIterator data) c1 w p1 rfl (h1 c1 w), hu1,
      PageIterator.SetNextPageURI_some _ u1 hne1]
    rfl
  have s2 : ∀ w, RoomPageIterator.Next
      { p := { (NewPageIterator r.client data roomPathPart) with
          state := IterState.Active u1 } } c2 w =
      (((some p2, none),
          { p := { (NewPageIterator r.client data roomPathPart) with
              state := IterState.Active u2 } }),
        w ++ [Call.GetNextPage c2 u1 Kind.roomPage]) := by
    intro w
    rw [RoomPageIterator.Next_following _ c2 w u1 p2 rfl hne1 (h2 c2 w), hu2,
      PageIterator.SetNextPageURI_some _ u2 hne2]
  have s3 : ∀ w, RoomPageIterator.Next
      { p := { (NewPageIterator r.client data roomPathPart) with
          state := IterState.Active u2 } } c3 w =
      (((some p3, none),
          { p := { (NewPageIterator r.client data roomPathPart) with
              state := IterState.Exhausted } }),
        w ++ [Call.GetNextPage c3 u2 Kind.roomPage]) := by
    intro w
    rw [RoomPageIterator.Next_following _ c3 w u2 p3 rfl hne2 (h3 c3 w), hu3]
    rfl
  have s4 : ∀ w, RoomPageIterator.Next
      { p := { (NewPageIterator r.client data roomPathPart) with
          state := IterState.Exhausted } } c4 w =
      (((none, some Error.NoMoreResults),
          { p := { (NewPageIterator r.client data roomPathPart) with
              state := IterState.Exhausted } }), w) :=
    fun w => RoomPageIterator.Next_exhausted _ c4 w rfl
  simp [RoomPageIterator.NextMany, s1, s2, s3, s4, hu3]

/-- C7: on a client that answers the list query on `"Rooms"` with a page of no
rooms and a null next-page URL, the first `Next` call on a fresh iterator
succeeds with that page, which has no rooms, and makes one call on the client;
every later `Next` call on the iterator fails with `NoMoreResults` and makes
none. -/
theorem empty_listing_one_page_then_exhausted (r : RoomService) (data : Values) (pg : RoomPage)
    (ctx : Context) (ctxs : List Context) (w : World)
    (h : ∀ (c : Context) (hist : World),
      r.client.respond hist (Call.ListResource c "Rooms" data Kind.roomPage)
        Kind.roomPage RoomPage.new = (pg, none))
    (h0 : sliceLen pg.Rooms = 0) (hn : pg.Meta.NextPageURL = none) :
    (∃ page : RoomPage,
        ((r.GetPageIterator data).Next ctx w).1.1 = (some page, none) ∧
          sliceLen page.Rooms = 0) ∧
      ((r.GetPageIterator data).Next ctx w).1.2.p.state = IterState.Exhausted ∧
      ((r.GetPageIterator data).NextMany (ctx :: ctxs) w).1.1 =
        (some pg, none) :: ctxs.map (fun _ => (none, some Error.NoMoreResults)) ∧
      ((r.GetPageIterator data).NextMany (ctx :: ctxs) w).2 =
        w ++ [Call.ListResource ctx "Rooms" data Kind.roomPage] := by
  have s1 : (r.GetPageIterator data).Next ctx w =
      (((some pg, none),
          { p := { (NewPageIterator r.client data roomPathPart) with
              state := IterState.Exhausted } }),
        w ++ [Call.ListResource ctx "Rooms" data Kind.roomPage]) := by
    rw [RoomPageIterator.Next_first (r.GetPageIterator data) ctx w pg rfl (h ctx w), hn]
    rfl
  refine ⟨⟨pg, by rw [s1], h0⟩, by rw [s1], ?_, ?_⟩
  · simp only [RoomPageIterator.NextMany, s1]
    rw [RoomPageIterator.NextMany_exhausted _ ctxs _ rfl]
  · simp only [RoomPageIterator.NextMany, s1]
    rw [RoomPageIterator.NextMany_exhausted _ ctxs _ rfl]


/-- The function `RoomPageIterator.Next` returns the error of the underlying fetch and
leaves the log that fetch left. -/
theorem RoomPageIterator.Next_error (r : RoomPageIterator) (ctx : Context) (w : World) :
    (r.Next ctx w).1.1.2 = (r.p.Next ctx Kind.roomPage RoomPage.new w).1.1.2 ∧
      (r.Next ctx w).2 = (r.p.Next ctx Kind.roomPage RoomPage.new w).2 := by
  cases h : (r.p.Next ctx Kind.roomPage RoomPage.new w).1.1.2 <;>
    simp [RoomPageIterator.Next, h]

/-- The function `VideoParticipantPageIterator.Next` returns the error of the underlying
fetch and leaves the log that fetch left. -/
theorem VideoParticipantPageIterator.Next_error_video (vr : VideoParticipantPageIterator)
    (ctx : Context) (w : World) :
    (vr.Next ctx w).1.1.2 =
        (vr.p.Next ctx Kind.videoParticipantPage VideoParticipantPage.new w).1.1.2 ∧
      (vr.Next ctx w).2 =
        (vr.p.Next ctx Kind.videoParticipantPage VideoParticipantPage.new w).2 := by
  cases h : (vr.p.Next ctx Kind.videoParticipantPage VideoParticipantPage.new w).1.1.2 <;>
    simp [VideoParticipantPageIterator.Next, h]

/-- C9: every operation of the four façades returns exactly the error (nil or
not) of its single underlying client or iterator call, and leaves the client
log as that one call left it: nothing is retried and no error is dropped or
replaced.  `Get`, `Complete`, `Create`, `ListParticipants` and
`RemoveParticipant` make one call on the client; `GetPage`, the two `Next`
and `GetPageForRoom` make one fetch on the page iterator. -/
theorem errors_surface_unmodified (r : RoomService) (vr : VideoParticipantService)
    (it : RoomPageIterator) (vit : VideoParticipantPageIterator) (ctx : Context)
    (sid roomName identity : String) (data : Values) (w : World) :
    ((r.Get ctx sid w).1.2 =
        (r.client.GetResource ctx roomPathPart sid Kind.room Room.new w).1.2 ∧
      (r.Get ctx sid w).2 =
        (r.client.GetResource ctx roomPathPart sid Kind.room Room.new w).2 ∧
      (r.Get ctx sid w).2.length = w.length + 1) ∧
    ((r.Complete ctx sid w).1.2 =
        (r.client.UpdateResource ctx roomPathPart sid (Values.Set [] "Status" StatusCompleted)
          Kind.room Room.new w).1.2 ∧
      (r.Complete ctx sid w).2 =
        (r.client.UpdateResource ctx roomPathPart sid (Values.Set [] "Status" StatusCompleted)
          Kind.room Room.new w).2 ∧
      (r.Complete ctx sid w).2.length = w.length + 1) ∧
    ((r.Create ctx data w).1.2 =
        (r.client.CreateResource ctx roomPathPart data Kind.room Room.new w).1.2 ∧
      (r.Create ctx data w).2 =
        (r.client.CreateResource ctx roomPathPart data Kind.room Room.new w).2 ∧
      (r.Create ctx data w).2.length = w.length + 1) ∧
    ((r.GetPage ctx data w).1.2 =
        ((r.GetPageIterator data).p.Next ctx Kind.roomPage RoomPage.new w).1.1.2 ∧
      (r.GetPage ctx data w).2 =
        ((r.GetPageIterator data).p.Next ctx Kind.roomPage RoomPage.new w).2) ∧
    ((it.Next ctx w).1.1.2 = (it.p.Next ctx Kind.roomPage RoomPage.new w).1.1.2 ∧
      (it.Next ctx w).2 = (it.p.Next ctx Kind.roomPage RoomPage.new w).2) ∧
    ((r.ListParticipants ctx roomName data w).1.2 =
        (r.client.ListResource ctx (Sprintf participantsPath [roomName]) data
          Kind.roomParticipantPage RoomParticipantPage.new w).1.2 ∧
      (r.ListParticipants ctx roomName data w).2 =
        (r.client.ListResource ctx (Sprintf participantsPath [roomName]) data
          Kind.roomParticipantPage RoomParticipantPage.new w).2 ∧
      (r.ListParticipants ctx roomName data w).2.length = w.length + 1) ∧
    ((r.RemoveParticipant ctx roomName identity w).1 =
        (r.client.UpdateResource ctx (Sprintf participantsPath [roomName]) identity
          (Values.Set [] "Status" "disconnected") Kind.nil () w).1.2 ∧
      (r.RemoveParticipant ctx roomName identity w).2 =
        (r.client.UpdateResource ctx (Sprintf participantsPath [roomName]) identity
          (Values.Set [] "Status" "disconnected") Kind.nil () w).2 ∧
      (r.RemoveParticipant ctx roomName identity w).2.length = w.length + 1) ∧
    ((vr.GetPageForRoom ctx sid data w).1.2 =
        ((vr.GetPageIterator sid data).p.Next ctx Kind.videoParticipantPage
          VideoParticipantPage.new w).1.1.2 ∧
      (vr.GetPageForRoom ctx sid data w).2 =
        ((vr.GetPageIterator sid data).p.Next ctx Kind.videoParticipantPage
          VideoParticipantPage.new w).2) ∧
    ((vit.Next ctx w).1.1.2 =
        (vit.p.Next ctx Kind.videoParticipantPage VideoParticipantPage.new w).1.1.2 ∧
      (vit.Next ctx w).2 =
        (vit.p.Next ctx Kind.videoParticipantPage VideoParticipantPage.new w).2) := by
  have hlist : (r.ListParticipants ctx roomName data w).1.2 =
        (r.client.ListResource ctx (Sprintf participantsPath [roomName]) data
          Kind.roomParticipantPage RoomParticipantPage.new w).1.2 ∧
      (r.ListParticipants ctx roomName data w).2 =
        (r.client.ListResource ctx (Sprintf participantsPath [roomName]) data
          Kind.roomParticipantPage RoomParticipantPage.new w).2 := by
    cases h : (r.client.ListResource ctx (Sprintf participantsPath [roomName]) data
        Kind.roomParticipantPage RoomParticipantPage.new w).1.2 <;>
      simp [RoomService.ListParticipants, h]
  refine ⟨⟨rfl, rfl, ?_⟩, ⟨rfl, rfl, ?_⟩, ⟨rfl, rfl, ?_⟩,
    RoomPageIterator.Next_error (r.GetPageIterator data) ctx w,
    RoomPageIterator.Next_error it ctx w,
    ⟨hlist.1, hlist.2, ?_⟩, ⟨rfl, rfl, ?_⟩,
    VideoParticipantPageIterator.Next_error_video (vr.GetPageIterator sid data) ctx w,
    VideoParticipantPageIterator.Next_error_video vit ctx w⟩
  · simp [RoomService.Get, Client.GetResource]
  · simp [RoomService.Complete, Client.UpdateResource]
  · simp [RoomService.Create, Client.CreateResource]
  · rw [hlist.2]; simp [Client.ListResource]
  · simp [RoomService.RemoveParticipant, Client.UpdateResource]

/-! ## Instances -/

/-- C4 at a client that refuses every connection: `Next` on fresh iterators
returns the nil page with the transport error and the iterators are still on
their first page. -/
theorem Next_failure_leaves_cursor_witness :
    ((RoomService.GetPageIterator ⟨refusingClient⟩ []).Next ⟨0⟩ []).1.1 =
        (none, some (Error.Transport "connection refused")) ∧
      ((RoomService.GetPageIterator ⟨refusingClient⟩ []).Next ⟨0⟩ []).1.2.p.state =
        IterState.Active "" ∧
      ((VideoParticipantService.GetPageIterator ⟨refusingClient⟩ "RM1" []).Next ⟨0⟩ []).1.1 =
        (none, some (Error.Transport "connection refused")) ∧
      ((VideoParticipantService.GetPageIterator ⟨refusingClient⟩ "RM1" []).Next ⟨0⟩ []).1.2.p.state =
        IterState.Active "" :=
  have t := Next_failure_leaves_cursor (RoomService.GetPageIterator ⟨refusingClient⟩ [])
    (VideoParticipantService.GetPageIterator ⟨refusingClient⟩ "RM1" []) ⟨0⟩ []
    (Error.Transport "connection refused") (Error.Transport "connection refused") rfl rfl
  ⟨t.1.1, t.1.2.2.1, t.2.1, t.2.2.2.1⟩

/-- C5 at the paged client: the first `Next` on fresh iterators returns the
first page and the cursor holds the next-page URL the server sent. -/
theorem Next_success_stores_next_page_url_witness :
    ((RoomService.GetPageIterator ⟨pagedClient⟩ []).Next ⟨0⟩ []).1.1 = (some roomsPage1, none) ∧
      ((RoomService.GetPageIterator ⟨pagedClient⟩ []).Next ⟨0⟩ []).1.2.p.state =
        IterState.Active "https://video.twilio.com/v1/Rooms?PageSize=2&Page=1&PageToken=PARM2" ∧
      ((VideoParticipantService.GetPageIterator ⟨pagedClient⟩ "RM1" []).Next ⟨0⟩ []).1.1 =
        (some participantsPage1, none) ∧
      ((VideoParticipantService.GetPageIterator ⟨pagedClient⟩ "RM1" []).Next ⟨0⟩ []).1.2.p.state =
        IterState.Active
          "https://video.twilio.com/v1/Rooms/RM1/Participants?PageSize=1&Page=1&PageToken=PAPA1" :=
  have t := Next_success_stores_next_page_url (RoomService.GetPageIterator ⟨pagedClient⟩ [])
    (VideoParticipantService.GetPageIterator ⟨pagedClient⟩ "RM1" []) ⟨0⟩ [] rfl rfl
  ⟨t.1.1, (t.1.2.2.1 roomsPage2URL rfl (by decide)).1, t.2.1,
    (t.2.2.2.1 participantsPage2URL rfl (by decide)).1⟩

/-- C6 at the paged client: four `Next` calls return the three pages and then
`NoMoreResults`, with three calls on the client in all. -/
theorem three_pages_then_NoMoreResults_witness :
    ((RoomService.GetPageIterator ⟨pagedClient⟩ []).NextMany [⟨1⟩, ⟨2⟩, ⟨3⟩, ⟨4⟩] []).1.1 =
        [(some roomsPage1, none), (some roomsPage2, none), (some roomsPage3, none),
          (none, some Error.NoMoreResults)] ∧
      ((RoomService.GetPageIterator ⟨pagedClient⟩ []).NextMany [⟨1⟩, ⟨2⟩, ⟨3⟩, ⟨4⟩] []).2 =
        [Call.ListResource ⟨1⟩ "Rooms" [] Kind.roomPage,
          Call.GetNextPage ⟨2⟩ roomsPage2URL Kind.roomPage,
          Call.GetNextPage ⟨3⟩ roomsPage3URL Kind.roomPage] :=
  have t := three_pages_then_NoMoreResults ⟨pagedClient⟩ [] roomsPage1 roomsPage2 roomsPage3
    roomsPage2URL roomsPage3URL ⟨1⟩ ⟨2⟩ ⟨3⟩ ⟨4⟩ [] (fun _ _ => rfl) (fun _ _ => rfl)
    (fun _ _ => rfl) rfl (by decide) rfl (by decide) rfl
  ⟨t.1, t.2.2.2.2.1.trans t.2.2.2.1⟩

/-- C7 at the client of a server with no rooms: the first `Next` returns the
empty page, the three that follow fail with `NoMoreResults`, and one call was
made on the client. -/
theorem empty_listing_one_page_then_exhausted_witness :
    ((RoomService.GetPageIterator ⟨emptyClient⟩ []).NextMany [⟨1⟩, ⟨2⟩, ⟨3⟩, ⟨4⟩] []).1.1 =
        [(some { Meta := ⟨none⟩, Rooms := some [] }, none), (none, some Error.NoMoreResults),
          (none, some Error.NoMoreResults), (none, some Error.NoMoreResults)] ∧
      ((RoomService.GetPageIterator ⟨emptyClient⟩ []).NextMany [⟨1⟩, ⟨2⟩, ⟨3⟩, ⟨4⟩] []).2 =
        [Call.ListResource ⟨1⟩ "Rooms" [] Kind.roomPage] :=
  have t := empty_listing_one_page_then_exhausted ⟨emptyClient⟩ []
    { Meta := ⟨none⟩, Rooms := some [] } ⟨1⟩ [⟨2⟩, ⟨3⟩, ⟨4⟩] [] (fun _ _ => rfl) rfl rfl
  ⟨t.2.2.1, t.2.2.2⟩

end Twilio
